import Mathlib

/-!
# Verification of the detray navigation engine

Shallow embedding of `src/core/include/tools/navigator.hpp` (the `navigator`
struct: `status`, `target`, `initialize_kernel`, `update_kernel`,
`sort_and_set`, `check_volume_switch`, `is_exhausted`) together with the
parts of the data model the navigator consumes.

The navigator's collaborators (`core/intersection.hpp`, `core/track.hpp`,
`tools/intersection_kernel.hpp`, `utils/indexing.hpp` and the detector
interface) are not part of the sources; those are modelled from the spec,
as marked on each definition.

Conventions of the embedding:
* C++ `scalar` (double) values that only ever enter comparisons are
  modelled as `ℚ`; the one field that is initialised to infinity
  (`distance_to_next`) uses the two-constructor type `scalar` below.
* Vector iterators are modelled as list positions: `kernel.next` is an
  index into `kernel.candidates`, `candidates.end()` is
  `candidates.length`.  For valid iterators `next ≤ length` always holds,
  so `next != end` is written `next < length` and dereferencing is done
  with a bounds proof.  A dereference of a past-the-end iterator is
  undefined behaviour in C++; operations that may perform one return
  `Option` and model it as `none`.
* The inspector is the `void_inspector` (the default and the only
  inspector in the sources); its invocations are no-ops and are omitted.
-/

namespace detray

/-- Modelled from the spec (`utils/indexing.hpp` is not in the sources):
`dindex` is an unsigned index type whose maximal value is the sentinel
`dindex_invalid`. -/
abbrev dindex := Nat

/-- Modelled from the spec: the sentinel index ("world" neighbour link,
invalid volume, no current surface).  The numeric value is the maximum of
a 64-bit unsigned integer. -/
def dindex_invalid : dindex := 18446744073709551615

/-- A C++ `scalar` (double) value that can be either finite or `+∞`;
`navigation_state::distance_to_next` is initialised to
`std::numeric_limits<scalar>::infinity()`. -/
inductive scalar where
  | fin : ℚ → scalar
  | inf : scalar
deriving DecidableEq, Repr

/-- The `<` comparison on `scalar` values (`+∞` larger than every finite
value). -/
def sblt : scalar → scalar → Bool
  | scalar.fin a, scalar.fin b => decide (a < b)
  | scalar.fin _, scalar.inf => true
  | scalar.inf, _ => false

/-- Modelled from the spec (`core/intersection.hpp` is not in the
sources): the status of an intersection, `inside / outside / missed`. -/
inductive intersection_status where
  | e_missed
  | e_outside
  | e_inside
deriving DecidableEq, Repr

/-- Modelled from the spec (`core/intersection.hpp` is not in the
sources): an intersection record: signed path length, the (local) surface
index, the neighbour-volume link (meaningful for portals) and the
inside/outside/missed status. -/
structure intersection where
  path : ℚ
  index : dindex
  link : dindex
  status : intersection_status
deriving DecidableEq, Repr

/-- A default record, used only for a guarded head access in
`sort_and_set`. -/
def default_intersection : intersection :=
  { path := 0, index := dindex_invalid, link := dindex_invalid,
    status := intersection_status.e_missed }

/-- Boolean test that a record's status is `inside`. -/
def is_inside (r : intersection) : Bool :=
  decide (r.status = intersection_status.e_inside)

/-- Modelled from the spec (the comparison operator of `intersection`
is not in the sources): candidates are ordered by ascending path length,
ties broken by ascending surface index ("deterministic traversal").
`std::sort` in `sort_and_set` sorts by this order. -/
def candidate_le (a b : intersection) : Prop :=
  a.path < b.path ∨ (a.path = b.path ∧ a.index ≤ b.index)

instance candidate_le_dec : DecidableRel candidate_le := fun a b =>
  decidable_of_iff (a.path < b.path ∨ (a.path = b.path ∧ a.index ≤ b.index)) Iff.rfl

instance candidate_le_total : IsTotal intersection candidate_le where
  total a b := by
    unfold candidate_le
    rcases lt_trichotomy a.path b.path with h | h | h
    · exact Or.inl (Or.inl h)
    · rcases Nat.le_total a.index b.index with hi | hi
      · exact Or.inl (Or.inr ⟨h, hi⟩)
      · exact Or.inr (Or.inr ⟨h.symm, hi⟩)
    · exact Or.inr (Or.inl h)

instance candidate_le_trans : IsTrans intersection candidate_le where
  trans a b c hab hbc := by
    unfold candidate_le at hab hbc ⊢
    rcases hab with h1 | ⟨h1, h1i⟩
    · rcases hbc with h2 | ⟨h2, _⟩
      · exact Or.inl (h1.trans h2)
      · exact Or.inl (h2 ▸ h1)
    · rcases hbc with h2 | ⟨h2, h2i⟩
      · exact Or.inl (h1 ▸ h2)
      · exact Or.inr ⟨h1.trans h2, h1i.trans h2i⟩

/-- Modelled from the spec (`core/track.hpp` is not in the sources): a
track carries a position and a direction (charge is irrelevant to the
navigator itself). -/
structure track where
  pos : ℚ × ℚ × ℚ
  dir : ℚ × ℚ × ℚ
deriving DecidableEq, Repr

/-- Modelled from the spec (the detector interface and
`tools/intersection_kernel.hpp` are not in the sources): a per-volume
object container (`volume.surfaces()` / `volume.portals()`): the number
of objects and the pure intersection kernel, which for a track and a
local object index yields the intersection record (path, status and the
portal's neighbour link). -/
structure constituents where
  n_objects : Nat
  intersect : track → Nat → intersection

/-- The navigator's use of the intersection kernel
(`auto [sfi, link] = intersect(track, object, transforms, masks);
sfi.index = si; sfi.link = link[0];`): the record's `index` field is
overwritten with the local index `si`; the returned record already
carries the link. -/
def reintersect (c : constituents) (t : track) (si : Nat) : intersection :=
  { c.intersect t si with index := si }

/-- Modelled from the spec (the detector is not in the sources): a volume
has a stable index and two object classes, sensitive surfaces and
portals. -/
structure volume where
  index : dindex
  surfaces : constituents
  portals : constituents

/-- Modelled from the spec (the detector is not in the sources): the
detector provides `indexed_volume(i)` (list lookup) and
`indexed_volume(point)` (global search, modelled by the
`volume_containing` index function). -/
structure detector_type where
  volumes : List volume
  volume_containing : ℚ × ℚ × ℚ → Nat

/-- Navigation status flag (`navigator.hpp`, enum `navigation_status`). -/
inductive navigation_status where
  | e_on_target
  | e_abort
  | e_unknown
  | e_towards_surface
  | e_on_surface
  | e_towards_portal
  | e_on_portal
deriving DecidableEq, Repr

/-- Navigation trust level (`navigator.hpp`, enum
`navigation_trust_level`). -/
inductive navigation_trust_level where
  | e_no_trust
  | e_fair_trust
  | e_high_trust
  | e_full_trust
deriving DecidableEq, Repr

/-- The numeric values of the trust enum (0, 1, 3, 4); the code compares
trust levels with `>=`. -/
def navigation_trust_level.level : navigation_trust_level → Nat
  | navigation_trust_level.e_no_trust => 0
  | navigation_trust_level.e_fair_trust => 1
  | navigation_trust_level.e_high_trust => 3
  | navigation_trust_level.e_full_trust => 4

/-- The nested navigation kernel (candidate cache): the candidate vector
and the `next` cursor, an index into `candidates`
(`candidates.end()` = `candidates.length`).  The `on` back-pointer and
the `links` member of the C++ struct are never read by any navigator
logic in the sources and are omitted. -/
structure navigation_kernel where
  candidates : List intersection
  next : Nat
deriving DecidableEq, Repr

/-- `navigation_kernel::empty`. -/
def navigation_kernel.empty (k : navigation_kernel) : Bool :=
  k.candidates.isEmpty

/-- `navigation_kernel::clear`: `candidates.clear(); next = candidates.end();`. -/
def navigation_kernel.clear (_k : navigation_kernel) : navigation_kernel :=
  { candidates := [], next := 0 }

/-- The navigation state (`navigator::navigation_state`): the two
candidate caches, the current volume, distance to next, the on-surface
tolerance, status, current index and trust level.  The inspector member
is the no-op `void_inspector` and is omitted. -/
structure navigation_state where
  surface_kernel : navigation_kernel
  portal_kernel : navigation_kernel
  volume_index : dindex
  distance_to_next : scalar
  on_surface_tolerance : ℚ
  status : navigation_status
  current_index : dindex
  trust_level : navigation_trust_level
deriving DecidableEq, Repr

/-- A freshly constructed navigation state, with the member initialisers
of the C++ struct (`volume_index = dindex_invalid`,
`distance_to_next = ∞`, `on_surface_tolerance = 1e-5`,
`status = e_unknown`, `current_index = dindex_invalid`,
`trust_level = e_no_trust`). -/
def nav_default : navigation_state :=
  { surface_kernel := { candidates := [], next := 0 }
    portal_kernel := { candidates := [], next := 0 }
    volume_index := dindex_invalid
    distance_to_next := scalar.inf
    on_surface_tolerance := mkRat 1 100000
    status := navigation_status.e_unknown
    current_index := dindex_invalid
    trust_level := navigation_trust_level.e_no_trust }

/-- `navigator::is_exhausted`: `kernel.next == kernel.candidates.end()`. -/
def is_exhausted (kernel : navigation_kernel) : Bool :=
  decide (kernel.next = kernel.candidates.length)

/-- `navigator::sort_and_set` (navigator.hpp lines 397-418).  If the
candidate vector is non-empty: raise trust to full, `std::sort` the
candidates, put the cursor at the head, copy the head's path into
`distance_to_next`; if that distance is below the on-surface tolerance,
set the `on_*` status and `current_index`; then — unconditionally, as in
the source — overwrite `current_index` with the sentinel and the status
with `towards_*` (source lines 415-416 are not guarded by an `else`). -/
def sort_and_set (kSurfaceType : Bool) (navigation : navigation_state)
    (kernel : navigation_kernel) : navigation_state × navigation_kernel :=
  if kernel.candidates.isEmpty then (navigation, kernel)
  else
    let navigation1 := { navigation with
      trust_level := navigation_trust_level.e_full_trust }
    let kernel1 : navigation_kernel :=
      { candidates := List.insertionSort candidate_le kernel.candidates, next := 0 }
    -- `kernel.next->path` with `next = begin`; the vector is non-empty here
    let hd := kernel1.candidates.getD 0 default_intersection
    let navigation2 := { navigation1 with distance_to_next := scalar.fin hd.path }
    let navigation3 :=
      if sblt navigation2.distance_to_next (scalar.fin navigation2.on_surface_tolerance) then
        { navigation2 with
          status := if kSurfaceType then navigation_status.e_on_surface
                    else navigation_status.e_on_portal,
          current_index := hd.index }
      else navigation2
    let navigation4 := { navigation3 with
      current_index := dindex_invalid,
      status := if kSurfaceType then navigation_status.e_towards_surface
                else navigation_status.e_towards_portal }
    (navigation4, kernel1)

/-- One iteration of the loop of `navigator::initialize_kernel`
(navigator.hpp lines 279-290): intersect object `si`, and on an `inside`
hit set the `towards_*` status and push the record. -/
def initialize_step (kSurfaceType : Bool) (t : track) (c : constituents)
    (acc : navigation_state × navigation_kernel) (si : Nat) :
    navigation_state × navigation_kernel :=
  let sfi := reintersect c t si
  if sfi.status = intersection_status.e_inside then
    ({ acc.1 with status := if kSurfaceType then navigation_status.e_towards_surface
                            else navigation_status.e_towards_portal },
     { acc.2 with candidates := acc.2.candidates ++ [sfi] })
  else acc

/-- `navigator::initialize_kernel` (navigator.hpp lines 258-292).
Short-circuits on an empty object range; otherwise intersects every
object `si ∈ [0, n_objects)`, pushes the `inside` hits (setting the
`towards_*` status for each hit, as the source does inside the loop) and
finishes with `sort_and_set`.  Note the push appends to whatever
candidates the kernel already holds, exactly as the C++ does. -/
def initialize_kernel (kSurfaceType : Bool) (navigation : navigation_state)
    (kernel : navigation_kernel) (t : track) (c : constituents) :
    navigation_state × navigation_kernel :=
  if c.n_objects = 0 then (navigation, kernel)
  else
    let r := (List.range c.n_objects).foldl (initialize_step kSurfaceType t c)
      (navigation, kernel)
    sort_and_set kSurfaceType r.1 r.2

/-- The body of `navigator::update_kernel` (navigator.hpp lines 306-390):
one level of the source function, with `recurse` standing for the
source's self-call (`++kernel.next; if (update_kernel(navigation, kernel,
track, constituents)) { return true; }` followed by the exhaustion fall-
through).  Returns (break condition, navigation, kernel). -/
def update_kernel_body (kSurfaceType : Bool) (t : track) (c : constituents)
    (recurse : navigation_state → navigation_kernel →
               Bool × navigation_state × navigation_kernel)
    (navigation : navigation_state) (kernel : navigation_kernel) :
    Bool × navigation_state × navigation_kernel :=
  -- If the kernel is empty - initialize it
  if kernel.candidates.isEmpty then
    let r := initialize_kernel kSurfaceType navigation kernel t c
    (true, r.1, r.2)
  -- Update the current candidate - only when the trust level is high
  else if h : navigation_trust_level.e_high_trust.level ≤ navigation.trust_level.level
              ∧ kernel.next < kernel.candidates.length then
    let si := (kernel.candidates.get ⟨kernel.next, h.2⟩).index
    let sfi := reintersect c t si
    if sfi.status = intersection_status.e_inside then
      let kernel1 := { kernel with candidates := kernel.candidates.set kernel.next sfi }
      let navigation1 := { navigation with distance_to_next := scalar.fin sfi.path }
      if sfi.path < navigation1.on_surface_tolerance then
        let navigation2 := { navigation1 with
          status := if kSurfaceType then navigation_status.e_on_surface
                    else navigation_status.e_on_portal,
          current_index := si }
        if navigation2.status ≠ navigation_status.e_on_portal then
          (true,
           { navigation2 with trust_level := navigation_trust_level.e_high_trust },
           { kernel1 with next := kernel1.next + 1 })
        else
          (true, navigation2, kernel1)
      else
        (true,
         { navigation1 with
           status := if kSurfaceType then navigation_status.e_towards_surface
                     else navigation_status.e_towards_portal,
           trust_level := navigation_trust_level.e_full_trust },
         kernel1)
    else
      -- If not successful: increase and switch to next
      let r := recurse navigation { kernel with next := kernel.next + 1 }
      if r.1 then r
      else
        (false,
         { r.2.1 with trust_level := navigation_trust_level.e_no_trust },
         { r.2.2 with next := r.2.2.candidates.length })
  -- Loop over all candidates and intersect again - when the trust level is fair
  else if navigation.trust_level = navigation_trust_level.e_fair_trust then
    let kernel1 := { kernel with
      candidates := kernel.candidates.map (fun cand => reintersect c t cand.index) }
    let r := sort_and_set kSurfaceType navigation kernel1
    if r.1.trust_level = navigation_trust_level.e_high_trust then
      (true, r.1, r.2)
    else
      (false,
       { r.1 with trust_level := navigation_trust_level.e_no_trust },
       { r.2 with next := r.2.candidates.length })
  -- This kernel is exhausted
  else
    (false,
     { navigation with trust_level := navigation_trust_level.e_no_trust },
     { kernel with next := kernel.candidates.length })

/-- The source's self-recursion made structural on a `fuel` argument:
the suffix of the candidate vector from the cursor on.  The wrapper
`update_kernel` passes `fuel = candidates.drop next`; the recursion
advances `next` by one on an unchanged candidate vector, so `fuel` stays
equal to `candidates.drop next` at every recursive entry.  The `fuel =
[]` continuation (only reachable when the incremented `next` has hit the
end) returns exactly the exhaustion result the source's next recursion
level produces in that situation, so the function computes what the C++
recursion computes. -/
def update_kernel_go (kSurfaceType : Bool) (t : track) (c : constituents) :
    List intersection → navigation_state → navigation_kernel →
    Bool × navigation_state × navigation_kernel
  | [] =>
    update_kernel_body kSurfaceType t c
      (fun navigation kernel =>
        (false,
         { navigation with trust_level := navigation_trust_level.e_no_trust },
         { kernel with next := kernel.candidates.length }))
  | _ :: fuel =>
    update_kernel_body kSurfaceType t c (update_kernel_go kSurfaceType t c fuel)

/-- `navigator::update_kernel`: the wrapper fixing the fuel of
`update_kernel_go` (see there). -/
def update_kernel (kSurfaceType : Bool) (navigation : navigation_state)
    (kernel : navigation_kernel) (t : track) (c : constituents) :
    Bool × navigation_state × navigation_kernel :=
  update_kernel_go kSurfaceType t c (kernel.candidates.drop kernel.next)
    navigation kernel

/-- `navigator::check_volume_switch` (navigator.hpp lines 424-435).  On
`e_on_portal`: set the volume index to the cursor's neighbour link,
clear both kernels, drop trust to `e_no_trust`.  The source dereferences
`navigation.portal_kernel.next` unconditionally; a past-the-end
dereference is undefined behaviour and is modelled as `none`. -/
def check_volume_switch (navigation : navigation_state) : Option navigation_state :=
  if navigation.status = navigation_status.e_on_portal then
    (navigation.portal_kernel.candidates[navigation.portal_kernel.next]?).bind
      (fun cur =>
        some { navigation with
          volume_index := cur.link,
          surface_kernel := navigation.surface_kernel.clear,
          portal_kernel := navigation.portal_kernel.clear,
          trust_level := navigation_trust_level.e_no_trust })
  else some navigation

/-- `navigator::status` (navigator.hpp lines 155-194).  Resolves the
volume (by index when valid, else by global search; a failed lookup is
undefined behaviour, `none`).  In the no-trust / no-volume case it
initialises the surface kernel and, if that stays empty, the portal
kernel followed by `check_volume_switch`.  Otherwise it updates the
surface kernel (skipped when exhausted, C++ short-circuit `and`) and on
a `false` break condition updates the portal kernel and checks the
volume switch. -/
def status (d : detector_type) (navigation : navigation_state) (t : track) :
    Option navigation_state :=
  (if navigation.volume_index ≠ dindex_invalid
   then d.volumes[navigation.volume_index]?
   else d.volumes[d.volume_containing t.pos]?).bind fun vol =>
    let navigation1 := { navigation with volume_index := vol.index }
    if navigation1.volume_index = dindex_invalid
       ∨ navigation1.trust_level = navigation_trust_level.e_no_trust then
      let r1 := initialize_kernel true navigation1 navigation1.surface_kernel t vol.surfaces
      let navigation2 := { r1.1 with surface_kernel := r1.2 }
      if navigation2.surface_kernel.candidates.isEmpty then
        let r2 := initialize_kernel false navigation2 navigation2.portal_kernel t vol.portals
        let navigation3 := { r2.1 with portal_kernel := r2.2 }
        check_volume_switch navigation3
      else
        some navigation2
    else
      let pre :=
        if is_exhausted navigation1.surface_kernel then (false, navigation1)
        else
          let r3 := update_kernel true navigation1 navigation1.surface_kernel t vol.surfaces
          (r3.1, { r3.2.1 with surface_kernel := r3.2.2 })
      if pre.1 then some pre.2
      else
        let r4 := update_kernel false pre.2 pre.2.portal_kernel t vol.portals
        let navigation5 := { r4.2.1 with portal_kernel := r4.2.2 }
        check_volume_switch navigation5

/-- `navigator::target` (navigator.hpp lines 204-245).  Returns
immediately on full trust.  Otherwise resolves the volume, and only at
high trust does any work: on an exhausted non-empty surface kernel it
clears it, drops trust and updates the portal kernel; on a live surface
kernel it updates it and, when the break condition is `false`, updates
the portal kernel (the portal update at source line 242, which also runs
when the surface kernel is empty); at fair or no trust it only runs the
inspector and returns. -/
def target (d : detector_type) (navigation : navigation_state) (t : track) :
    Option navigation_state :=
  if navigation.trust_level = navigation_trust_level.e_full_trust then
    some navigation
  else
    (if navigation.volume_index ≠ dindex_invalid
     then d.volumes[navigation.volume_index]?
     else d.volumes[d.volume_containing t.pos]?).bind fun vol =>
      let navigation1 := { navigation with volume_index := vol.index }
      if navigation1.trust_level = navigation_trust_level.e_high_trust then
        if navigation1.surface_kernel.candidates.isEmpty then
          let r := update_kernel false navigation1 navigation1.portal_kernel t vol.portals
          some { r.2.1 with portal_kernel := r.2.2 }
        else
          if is_exhausted navigation1.surface_kernel then
            let navigation2 := { navigation1 with
              surface_kernel := navigation1.surface_kernel.clear,
              trust_level := navigation_trust_level.e_no_trust }
            let r := update_kernel false navigation2 navigation2.portal_kernel t vol.portals
            some { r.2.1 with portal_kernel := r.2.2 }
          else
            let r := update_kernel true navigation1 navigation1.surface_kernel t vol.surfaces
            let navigation3 := { r.2.1 with surface_kernel := r.2.2 }
            if r.1 then some navigation3
            else
              let r2 := update_kernel false navigation3 navigation3.portal_kernel t vol.portals
              some { r2.2.1 with portal_kernel := r2.2.2 }
      else
        some navigation1

/-! ## Concrete detectors and navigation traces

Small detector instances used to exercise the navigator on concrete
inputs.  The intersection kernels are simple functions of the track's
`x` coordinate (`pos.1`): a plane at `x = a` met by a track moving along
`+x` from `x = p` is at path `a - p`. -/

/-- An object container with no objects. -/
def no_objects : constituents :=
  { n_objects := 0, intersect := fun _ _ => default_intersection }

/-- Track at the origin, direction `+x`. -/
def t_x0 : track := { pos := (0, 0, 0), dir := (1, 0, 0) }

/-- Track at `x = 1`, direction `+x`. -/
def t_x1 : track := { pos := (1, 0, 0), dir := (1, 0, 0) }

/-- Track at `x = 5`, direction `+x`. -/
def t_x5 : track := { pos := (5, 0, 0), dir := (1, 0, 0) }

/-- A single portal plane at `x = 5` with neighbour link `lk`: path 5
from the origin, path 0 once the track stands at `x = 5`. -/
def portal_at_5 (lk : dindex) : constituents :=
  { n_objects := 1,
    intersect := fun t _ =>
      { path := if t.pos.1 = 5 then 0 else 5, index := 0, link := lk,
        status := intersection_status.e_inside } }

/-- Two-volume detector: volume 0 has no surfaces and one portal at
`x = 5` whose neighbour link is volume 1; volume 1 is a completely empty
volume (no surfaces, no portals). -/
def dW : detector_type :=
  { volumes :=
      [ { index := 0, surfaces := no_objects, portals := portal_at_5 1 },
        { index := 1, surfaces := no_objects, portals := no_objects } ],
    volume_containing := fun _ => 0 }

/-- One-volume detector whose single portal at `x = 5` carries the world
sentinel `dindex_invalid` as its neighbour link. -/
def dX : detector_type :=
  { volumes :=
      [ { index := 0, surfaces := no_objects,
          portals := portal_at_5 dindex_invalid } ],
    volume_containing := fun _ => 0 }

/-- Two sensitive surfaces: object 0 at path 0 (the track starts on it)
and object 1 at path 5, for every track. -/
def surfaces_0_5 : constituents :=
  { n_objects := 2,
    intersect := fun _ si =>
      if si = 0 then
        { path := 0, index := 0, link := 0,
          status := intersection_status.e_inside }
      else
        { path := 5, index := 1, link := 0,
          status := intersection_status.e_inside } }

/-- A volume with the two surfaces of `surfaces_0_5` and no portals. -/
def volA : volume :=
  { index := 0, surfaces := surfaces_0_5, portals := no_objects }

/-- One-volume detector over `volA`. -/
def dA : detector_type :=
  { volumes := [volA], volume_containing := fun _ => 0 }

/-- Two surfaces whose re-intersection from `x = 1` moves object 0 from
path 5 out to path 7 while object 1 stays at path 6 (e.g. a curving
track): used to break cache sortedness. -/
def surfaces_reorder : constituents :=
  { n_objects := 2,
    intersect := fun t si =>
      if si = 0 then
        (if t.pos.1 = 0 then
          { path := 5, index := 0, link := 0,
            status := intersection_status.e_inside }
         else
          { path := 7, index := 0, link := 0,
            status := intersection_status.e_inside })
      else
        { path := 6, index := 1, link := 0,
          status := intersection_status.e_inside } }

/-- One-volume detector over `surfaces_reorder`. -/
def dC : detector_type :=
  { volumes :=
      [ { index := 0, surfaces := surfaces_reorder, portals := no_objects } ],
    volume_containing := fun _ => 0 }

/-- Two surfaces (paths 0 and 5 from the origin) that both re-intersect
as `outside` from `x = 1`: used to drive the cursor off the end and then
re-initialise over stale candidates. -/
def surfaces_vanish : constituents :=
  { n_objects := 2,
    intersect := fun t si =>
      if si = 0 then
        (if t.pos.1 = 0 then
          { path := 0, index := 0, link := 0,
            status := intersection_status.e_inside }
         else
          { path := 1, index := 0, link := 0,
            status := intersection_status.e_outside })
      else
        (if t.pos.1 = 0 then
          { path := 5, index := 1, link := 0,
            status := intersection_status.e_inside }
         else
          { path := 9, index := 1, link := 0,
            status := intersection_status.e_outside }) }

/-- One-volume detector over `surfaces_vanish`. -/
def dB : detector_type :=
  { volumes :=
      [ { index := 0, surfaces := surfaces_vanish, portals := no_objects } ],
    volume_containing := fun _ => 0 }

/-- Two surfaces where object 0 re-intersects as `outside` (path 9) from
`x = 1` while object 1 stays `inside` at path 6: used to show that a
fair-trust update stores an `outside` record. -/
def surfaces_half_vanish : constituents :=
  { n_objects := 2,
    intersect := fun t si =>
      if si = 0 then
        (if t.pos.1 = 0 then
          { path := 5, index := 0, link := 0,
            status := intersection_status.e_inside }
         else
          { path := 9, index := 0, link := 0,
            status := intersection_status.e_outside })
      else
        { path := 6, index := 1, link := 0,
          status := intersection_status.e_inside } }

/-- One-volume detector over `surfaces_half_vanish`. -/
def dD : detector_type :=
  { volumes :=
      [ { index := 0, surfaces := surfaces_half_vanish, portals := no_objects } ],
    volume_containing := fun _ => 0 }

/-! ### Intermediate states of the traces

Each state below is the (machine-checked) value of the navigation state
at one point of a concrete `status` call sequence; the theorems about the
claims verify the full traces. -/

/-- `dW` trace, after the first `status` call from a fresh state at the
origin: volume 0 bootstrapped, one portal candidate at path 5. -/
def sW1 : navigation_state :=
  { surface_kernel := { candidates := [], next := 0 },
    portal_kernel :=
      { candidates :=
          [{ path := 5, index := 0, link := 1, status := intersection_status.e_inside }],
        next := 0 },
    volume_index := 0,
    distance_to_next := scalar.fin 5,
    on_surface_tolerance := mkRat 1 100000,
    status := navigation_status.e_towards_portal,
    current_index := dindex_invalid,
    trust_level := navigation_trust_level.e_full_trust }

/-- `dW` trace, after the second `status` call at `x = 5` (the portal is
reached and the volume switch to volume 1 has run): both caches cleared,
no trust, status left at `e_on_portal`. -/
def sW2 : navigation_state :=
  { surface_kernel := { candidates := [], next := 0 },
    portal_kernel := { candidates := [], next := 0 },
    volume_index := 1,
    distance_to_next := scalar.fin 0,
    on_surface_tolerance := mkRat 1 100000,
    status := navigation_status.e_on_portal,
    current_index := 0,
    trust_level := navigation_trust_level.e_no_trust }

/-- `dX` trace, after the first `status` call from a fresh state: one
portal candidate carrying the world-sentinel link. -/
def sX1 : navigation_state :=
  { sW1 with
    portal_kernel :=
      { candidates :=
          [{ path := 5, index := 0, link := dindex_invalid,
             status := intersection_status.e_inside }],
        next := 0 } }

/-- `dX` trace, after the portal with the sentinel link is crossed: the
sentinel is assigned to `volume_index` unchecked. -/
def sX2 : navigation_state :=
  { sW2 with volume_index := dindex_invalid }

/-- `dA`/`dB` traces, after the first `status` call from a fresh state:
two surface candidates at paths 0 and 5, cursor at the head. -/
def sK1 : navigation_state :=
  { surface_kernel :=
      { candidates :=
          [{ path := 0, index := 0, link := 0, status := intersection_status.e_inside },
           { path := 5, index := 1, link := 0, status := intersection_status.e_inside }],
        next := 0 },
    portal_kernel := { candidates := [], next := 0 },
    volume_index := 0,
    distance_to_next := scalar.fin 0,
    on_surface_tolerance := mkRat 1 100000,
    status := navigation_status.e_towards_surface,
    current_index := dindex_invalid,
    trust_level := navigation_trust_level.e_full_trust }

/-- `dA`/`dB` traces, after the next `status` call: the head candidate
(path 0) is within tolerance, so the status is `e_on_surface` and the
cursor advanced past it. -/
def sK2 : navigation_state :=
  { sK1 with
    surface_kernel := { sK1.surface_kernel with next := 1 },
    status := navigation_status.e_on_surface,
    current_index := 0,
    trust_level := navigation_trust_level.e_high_trust }

/-- `dA` trace, third `status` call with the track unchanged: the cursor
re-intersects candidate 1 (path 5, beyond tolerance), so status, distance
and trust change although the track did not move. -/
def sA3 : navigation_state :=
  { sK2 with
    distance_to_next := scalar.fin 5,
    status := navigation_status.e_towards_surface,
    trust_level := navigation_trust_level.e_full_trust }

/-- `dB` trace, third `status` call from `x = 1`: both re-intersections
fail, the cursor walks off the end (`next = 2`), trust drops to
`e_no_trust`; the stale candidates stay in the cache. -/
def sB3 : navigation_state :=
  { sK2 with
    surface_kernel := { sK2.surface_kernel with next := 2 },
    trust_level := navigation_trust_level.e_no_trust }

/-- `dC` trace, after the first `status` call from a fresh state: two
surface candidates at paths 5 and 6, sorted, cursor at the head. -/
def sC1 : navigation_state :=
  { surface_kernel :=
      { candidates :=
          [{ path := 5, index := 0, link := 0, status := intersection_status.e_inside },
           { path := 6, index := 1, link := 0, status := intersection_status.e_inside }],
        next := 0 },
    portal_kernel := { candidates := [], next := 0 },
    volume_index := 0,
    distance_to_next := scalar.fin 5,
    on_surface_tolerance := mkRat 1 100000,
    status := navigation_status.e_towards_surface,
    current_index := dindex_invalid,
    trust_level := navigation_trust_level.e_full_trust }

/-- `dC` trace, after a high-trust `status` call from `x = 1`: only the
cursor's record was re-intersected (path 5 → 7) and overwritten in
place, leaving the cache unsorted (7 before 6). -/
def sC2 : navigation_state :=
  { sC1 with
    surface_kernel :=
      { candidates :=
          [{ path := 7, index := 0, link := 0, status := intersection_status.e_inside },
           { path := 6, index := 1, link := 0, status := intersection_status.e_inside }],
        next := 0 },
    distance_to_next := scalar.fin 7 }

/-- `dD` trace, after a fair-trust `status` call from `x = 1`: every
record was re-intersected and stored unconditionally, so the `outside`
re-intersection of object 0 (path 9) sits in the cache; the fair-trust
update then falls through to the exhaustion path (cursor at the end, no
trust). -/
def sD2 : navigation_state :=
  { sC1 with
    surface_kernel :=
      { candidates :=
          [{ path := 6, index := 1, link := 0, status := intersection_status.e_inside },
           { path := 9, index := 0, link := 0, status := intersection_status.e_outside }],
        next := 2 },
    distance_to_next := scalar.fin 6,
    trust_level := navigation_trust_level.e_no_trust }

/-- A state on which an external actor (an aborter) has set
`status = e_abort`; everything else is fresh. -/
def s_abort : navigation_state :=
  { nav_default with status := navigation_status.e_abort }

/-- A candidate cache whose head lies on the current track position
(path 0, i.e. within the on-surface tolerance). -/
def kernel_head_on : navigation_kernel :=
  { candidates :=
      [{ path := 0, index := 7, link := 0, status := intersection_status.e_inside }],
    next := 0 }

/-- `sK1` with the cursor on the second candidate (path 5, beyond the
tolerance): the input of the idempotence witness. -/
def sK1_cursor1 : navigation_state :=
  { sK1 with surface_kernel := { sK1.surface_kernel with next := 1 } }

/-- A high-trust state in volume 0, otherwise fresh: the input of the
update-kernel witnesses. -/
def nav_high0 : navigation_state :=
  { nav_default with
    volume_index := 0,
    trust_level := navigation_trust_level.e_high_trust }

/-! ## Helper lemmas

Closed-form evaluations of `update_kernel` on its high-trust branches,
and preservation lemmas for `initialize_kernel` / `sort_and_set`. -/

/-- High-trust branch, cursor record re-intersects `inside` within
tolerance: the record is overwritten, the `on_*` status and
`current_index` are set; for the surface kernel the cursor advances and
trust becomes high, for the portal kernel both stay. -/
theorem update_kernel_body_on (b : Bool) (t : track) (c : constituents)
    (recurse : navigation_state → navigation_kernel →
               Bool × navigation_state × navigation_kernel)
    (nav : navigation_state) (k : navigation_kernel) (cur : intersection)
    (htr : navigation_trust_level.e_high_trust.level ≤ nav.trust_level.level)
    (hcur : k.candidates[k.next]? = some cur)
    (hin : (reintersect c t cur.index).status = intersection_status.e_inside)
    (hnear : (reintersect c t cur.index).path < nav.on_surface_tolerance) :
    update_kernel_body b t c recurse nav k =
      (true,
       { nav with
         distance_to_next := scalar.fin (reintersect c t cur.index).path,
         status := if b then navigation_status.e_on_surface else navigation_status.e_on_portal,
         current_index := cur.index,
         trust_level := if b then navigation_trust_level.e_high_trust else nav.trust_level },
       { candidates := k.candidates.set k.next (reintersect c t cur.index),
         next := if b then k.next + 1 else k.next }) := by
  obtain ⟨hlt, hget⟩ := List.getElem?_eq_some_iff.mp hcur
  have hget2 : ∀ (hh : k.next < k.candidates.length), k.candidates.get ⟨k.next, hh⟩ = cur :=
    fun hh => by rw [List.get_eq_getElem]; exact hget
  have hne : k.candidates.isEmpty = false := by
    rw [List.isEmpty_eq_false]
    intro h
    rw [h] at hlt
    exact absurd hlt (by simp)
  unfold update_kernel_body
  rw [hne]
  rw [if_neg Bool.false_ne_true]
  rw [dif_pos ⟨htr, hlt⟩]
  rw [hget2]
  rw [if_pos hin]
  rw [if_pos hnear]
  cases b <;> rfl

/-- High-trust branch, cursor record re-intersects `inside` beyond
tolerance: the record is overwritten, the distance copied, the status
becomes `towards_*` and trust rises to full; the cursor stays. -/
theorem update_kernel_body_towards (b : Bool) (t : track) (c : constituents)
    (recurse : navigation_state → navigation_kernel →
               Bool × navigation_state × navigation_kernel)
    (nav : navigation_state) (k : navigation_kernel) (cur : intersection)
    (htr : navigation_trust_level.e_high_trust.level ≤ nav.trust_level.level)
    (hcur : k.candidates[k.next]? = some cur)
    (hin : (reintersect c t cur.index).status = intersection_status.e_inside)
    (hfar : ¬ (reintersect c t cur.index).path < nav.on_surface_tolerance) :
    update_kernel_body b t c recurse nav k =
      (true,
       { nav with
         distance_to_next := scalar.fin (reintersect c t cur.index).path,
         status := if b then navigation_status.e_towards_surface
                   else navigation_status.e_towards_portal,
         trust_level := navigation_trust_level.e_full_trust },
       { candidates := k.candidates.set k.next (reintersect c t cur.index),
         next := k.next }) := by
  obtain ⟨hlt, hget⟩ := List.getElem?_eq_some_iff.mp hcur
  have hget2 : ∀ (hh : k.next < k.candidates.length), k.candidates.get ⟨k.next, hh⟩ = cur :=
    fun hh => by rw [List.get_eq_getElem]; exact hget
  have hne : k.candidates.isEmpty = false := by
    rw [List.isEmpty_eq_false]
    intro h
    rw [h] at hlt
    exact absurd hlt (by simp)
  unfold update_kernel_body
  rw [hne]
  rw [if_neg Bool.false_ne_true]
  rw [dif_pos ⟨htr, hlt⟩]
  rw [hget2]
  rw [if_pos hin]
  rw [if_neg hfar]

/-- `update_kernel_body_on` lifted to `update_kernel`. -/
theorem update_kernel_on (b : Bool) (nav : navigation_state) (k : navigation_kernel)
    (t : track) (c : constituents) (cur : intersection)
    (htr : navigation_trust_level.e_high_trust.level ≤ nav.trust_level.level)
    (hcur : k.candidates[k.next]? = some cur)
    (hin : (reintersect c t cur.index).status = intersection_status.e_inside)
    (hnear : (reintersect c t cur.index).path < nav.on_surface_tolerance) :
    update_kernel b nav k t c =
      (true,
       { nav with
         distance_to_next := scalar.fin (reintersect c t cur.index).path,
         status := if b then navigation_status.e_on_surface else navigation_status.e_on_portal,
         current_index := cur.index,
         trust_level := if b then navigation_trust_level.e_high_trust else nav.trust_level },
       { candidates := k.candidates.set k.next (reintersect c t cur.index),
         next := if b then k.next + 1 else k.next }) := by
  obtain ⟨hlt, _⟩ := List.getElem?_eq_some_iff.mp hcur
  unfold update_kernel
  rw [List.drop_eq_getElem_cons hlt]
  simp only [update_kernel_go]
  exact update_kernel_body_on b t c _ nav k cur htr hcur hin hnear

/-- `update_kernel_body_towards` lifted to `update_kernel`. -/
theorem update_kernel_towards (b : Bool) (nav : navigation_state) (k : navigation_kernel)
    (t : track) (c : constituents) (cur : intersection)
    (htr : navigation_trust_level.e_high_trust.level ≤ nav.trust_level.level)
    (hcur : k.candidates[k.next]? = some cur)
    (hin : (reintersect c t cur.index).status = intersection_status.e_inside)
    (hfar : ¬ (reintersect c t cur.index).path < nav.on_surface_tolerance) :
    update_kernel b nav k t c =
      (true,
       { nav with
         distance_to_next := scalar.fin (reintersect c t cur.index).path,
         status := if b then navigation_status.e_towards_surface
                   else navigation_status.e_towards_portal,
         trust_level := navigation_trust_level.e_full_trust },
       { candidates := k.candidates.set k.next (reintersect c t cur.index),
         next := k.next }) := by
  obtain ⟨hlt, _⟩ := List.getElem?_eq_some_iff.mp hcur
  unfold update_kernel
  rw [List.drop_eq_getElem_cons hlt]
  simp only [update_kernel_go]
  exact update_kernel_body_towards b t c _ nav k cur htr hcur hin hfar

/-- A `status` call that takes the high-trust towards-surface path: the
cursor's record is overwritten with its re-intersection, the distance
copied, status `e_towards_surface`, trust full; nothing else changes. -/
theorem status_towards_step (d : detector_type) (s : navigation_state) (t : track)
    (vol : volume) (cur : intersection)
    (hvi : s.volume_index ≠ dindex_invalid)
    (hvol : d.volumes[s.volume_index]? = some vol)
    (hidx : vol.index = s.volume_index)
    (htr : navigation_trust_level.e_high_trust.level ≤ s.trust_level.level)
    (hcur : s.surface_kernel.candidates[s.surface_kernel.next]? = some cur)
    (hin : (reintersect vol.surfaces t cur.index).status = intersection_status.e_inside)
    (hfar : ¬ (reintersect vol.surfaces t cur.index).path < s.on_surface_tolerance) :
    status d s t =
      some { s with
        surface_kernel :=
          { candidates := s.surface_kernel.candidates.set s.surface_kernel.next
              (reintersect vol.surfaces t cur.index),
            next := s.surface_kernel.next },
        distance_to_next := scalar.fin (reintersect vol.surfaces t cur.index).path,
        status := navigation_status.e_towards_surface,
        trust_level := navigation_trust_level.e_full_trust } := by
  obtain ⟨sk, pk, vi, dist, tol, st, ci, tl⟩ := s
  dsimp only at hvi hvol htr hcur hfar ⊢
  have htr0 : tl ≠ navigation_trust_level.e_no_trust := by
    intro h
    rw [h] at htr
    exact absurd htr (by decide)
  obtain ⟨hlt, _⟩ := List.getElem?_eq_some_iff.mp hcur
  have hex : is_exhausted sk = false := by
    unfold is_exhausted
    simp only [decide_eq_false_iff_not]
    omega
  unfold status
  rw [if_pos hvi, hvol, Option.some_bind, hidx]
  dsimp only
  rw [if_neg (by rintro (h | h); exacts [hvi h, htr0 h])]
  rw [hex]
  rw [if_neg Bool.false_ne_true]
  rw [update_kernel_towards true _ sk t vol.surfaces cur htr hcur hin hfar]
  rfl

/-- The loop of `initialize_kernel` only ever pushes `inside` records. -/
theorem initialize_step_all_inside (b : Bool) (t : track) (c : constituents) :
    ∀ (l : List Nat) (acc : navigation_state × navigation_kernel),
      acc.2.candidates.all is_inside = true →
      ((l.foldl (initialize_step b t c) acc).2).candidates.all is_inside = true := by
  intro l
  induction l with
  | nil => exact fun acc h => h
  | cons x xs ih =>
    intro acc h
    rw [List.foldl_cons]
    apply ih
    unfold initialize_step
    by_cases hs : (reintersect c t x).status = intersection_status.e_inside
    · rw [if_pos hs]
      dsimp only
      rw [List.all_append, h]
      simp [is_inside, hs]
    · rw [if_neg hs]
      exact h

/-- `sort_and_set` permutes the candidates, so it preserves the
all-`inside` property. -/
theorem sort_and_set_all_inside (b : Bool) (nav : navigation_state)
    (k : navigation_kernel) (h : k.candidates.all is_inside = true) :
    (sort_and_set b nav k).2.candidates.all is_inside = true := by
  unfold sort_and_set
  by_cases he : k.candidates.isEmpty
  · rw [if_pos he]
    exact h
  · rw [if_neg he]
    dsimp only
    rw [List.all_eq_true] at h ⊢
    intro x hx
    exact h x ((List.perm_insertionSort candidate_le k.candidates).mem_iff.mp hx)

/-! ## The claims -/

/-- C1: the spec says `sort_and_set` derives `on_surface`/`on_portal`
with `current_index` set to the head's index when the head's path is
within the on-surface tolerance.  The code sets those fields and then
unconditionally overwrites them (navigator.hpp lines 415-416): on a
cache whose head has path 0 (within ε) the result is
`e_towards_surface` with `current_index` at the sentinel, while the head
path is copied into `distance_to_next` and is within the tolerance. -/
theorem sort_and_set_overwrites_on_surface :
    (sort_and_set true nav_default kernel_head_on).1.status
      = navigation_status.e_towards_surface
    ∧ (sort_and_set true nav_default kernel_head_on).1.current_index = dindex_invalid
    ∧ (sort_and_set true nav_default kernel_head_on).1.distance_to_next = scalar.fin 0
    ∧ (0 : ℚ) < (sort_and_set true nav_default kernel_head_on).1.on_surface_tolerance
    ∧ (sort_and_set true nav_default kernel_head_on).2.next = 0 := by
  refine ⟨by decide, by decide, by decide, by decide, by decide⟩

/-- C2 counterexample: after a `status` call in which the portal cursor
is reached and `check_volume_switch` performs the volume switch (the
`dW` trace), the state's status is still `e_on_portal` and not
`e_unknown`; the status field is never reset to `e_unknown` by the
switch. -/
theorem volume_switch_status_not_unknown_cex :
    status dW { sW1 with trust_level := navigation_trust_level.e_high_trust } t_x5
      = some sW2
    ∧ sW2.volume_index = 1
    ∧ sW2.trust_level = navigation_trust_level.e_no_trust
    ∧ sW2.surface_kernel.candidates = []
    ∧ sW2.portal_kernel.candidates = []
    ∧ sW2.status = navigation_status.e_on_portal
    ∧ sW2.status ≠ navigation_status.e_unknown := by
  refine ⟨by decide, by decide, by decide, by decide, by decide, by decide, by decide⟩

/-- C2 (amended): when the status is `e_on_portal` and the portal cursor
is in range, `check_volume_switch` assigns the cursor record's
neighbour-volume link to the state's current volume, clears both
candidate caches and drops the trust level to `e_no_trust`; the status
field remains `e_on_portal` (it is not reset to `e_unknown` — the next
`status()` call re-initialises the new volume through the no-trust
path). -/
theorem check_volume_switch_spec (s : navigation_state) (cur : intersection)
    (hst : s.status = navigation_status.e_on_portal)
    (hcur : s.portal_kernel.candidates[s.portal_kernel.next]? = some cur) :
    check_volume_switch s =
      some { s with
        volume_index := cur.link,
        surface_kernel := s.surface_kernel.clear,
        portal_kernel := s.portal_kernel.clear,
        trust_level := navigation_trust_level.e_no_trust }
    ∧ ({ s with
        volume_index := cur.link,
        surface_kernel := s.surface_kernel.clear,
        portal_kernel := s.portal_kernel.clear,
        trust_level := navigation_trust_level.e_no_trust } : navigation_state).status
      = navigation_status.e_on_portal := by
  constructor
  · unfold check_volume_switch
    rw [if_pos hst, hcur, Option.some_bind]
  · exact hst

/-- C2 witness: `check_volume_switch_spec` applied to a concrete
on-portal state of the `dW` detector. -/
theorem check_volume_switch_spec_witness :
    ({ sW1 with status := navigation_status.e_on_portal } : navigation_state).status
      = navigation_status.e_on_portal
    ∧ (check_volume_switch { sW1 with status := navigation_status.e_on_portal } =
        some { { sW1 with status := navigation_status.e_on_portal } with
          volume_index :=
            ({ path := 5, index := 0, link := 1,
               status := intersection_status.e_inside } : intersection).link,
          surface_kernel :=
            ({ sW1 with status := navigation_status.e_on_portal } :
              navigation_state).surface_kernel.clear,
          portal_kernel :=
            ({ sW1 with status := navigation_status.e_on_portal } :
              navigation_state).portal_kernel.clear,
          trust_level := navigation_trust_level.e_no_trust }
       ∧ ({ { sW1 with status := navigation_status.e_on_portal } with
          volume_index :=
            ({ path := 5, index := 0, link := 1,
               status := intersection_status.e_inside } : intersection).link,
          surface_kernel :=
            ({ sW1 with status := navigation_status.e_on_portal } :
              navigation_state).surface_kernel.clear,
          portal_kernel :=
            ({ sW1 with status := navigation_status.e_on_portal } :
              navigation_state).portal_kernel.clear,
          trust_level := navigation_trust_level.e_no_trust } : navigation_state).status
          = navigation_status.e_on_portal) :=
  ⟨rfl,
   check_volume_switch_spec { sW1 with status := navigation_status.e_on_portal }
     { path := 5, index := 0, link := 1, status := intersection_status.e_inside }
     rfl rfl⟩

/-- C3: the claim says `status()`/`target()` never perform an invalid
access.  On the `dW` detector a fresh track reaches the portal, switches
into volume 1 (which has no surfaces and no portals) with the status
stuck at `e_on_portal`, and the next `status()` call dereferences the
cursor of the freshly cleared (empty) portal cache inside
`check_volume_switch` — a past-the-end dereference, modelled as
`none`. -/
theorem status_past_the_end_dereference :
    status dW nav_default t_x0 = some sW1
    ∧ status dW { sW1 with trust_level := navigation_trust_level.e_high_trust } t_x5
        = some sW2
    ∧ sW2.status = navigation_status.e_on_portal
    ∧ sW2.portal_kernel.candidates = []
    ∧ status dW sW2 t_x5 = none := by
  refine ⟨by decide, by decide, by decide, by decide, by decide⟩

/-- C4: the claim says a world-sentinel neighbour link yields
`status = e_on_target` and any other out-of-range link yields
`e_abort`.  On the `dX` detector (portal link = sentinel) the code
assigns the sentinel to `volume_index` unchecked and leaves the status
at `e_on_portal`; `e_on_target` and `e_abort` are never assigned
anywhere in the navigator. -/
theorem world_sentinel_not_on_target :
    status dX nav_default t_x0 = some sX1
    ∧ sX1.portal_kernel.candidates.getD 0 default_intersection
        = { path := 5, index := 0, link := dindex_invalid,
            status := intersection_status.e_inside }
    ∧ status dX { sX1 with trust_level := navigation_trust_level.e_high_trust } t_x5
        = some sX2
    ∧ sX2.volume_index = dindex_invalid
    ∧ sX2.status = navigation_status.e_on_portal
    ∧ sX2.status ≠ navigation_status.e_on_target
    ∧ sX2.status ≠ navigation_status.e_abort := by
  refine ⟨by decide, by decide, by decide, by decide, by decide, by decide, by decide⟩

/-- C5: the claim says that when re-initialisation also yields an empty
candidate set the status transitions to `e_abort`, and that after every
`target()` call either `distance_to_next` identifies the next candidate
or the status is `e_abort`/`e_on_target`.  In the reachable `dW` state
`sW2` (all caches empty in the empty volume 1, reached through the
portal) `target()` returns the state unchanged: the status stays
`e_on_portal`, never `e_abort` or `e_on_target` (neither value is ever
assigned in the navigator), and `distance_to_next` is the stale 0 of
the crossed portal while no candidate exists. -/
theorem exhausted_caches_no_abort :
    status dW nav_default t_x0 = some sW1
    ∧ status dW { sW1 with trust_level := navigation_trust_level.e_high_trust } t_x5
        = some sW2
    ∧ sW2.surface_kernel.candidates = []
    ∧ sW2.portal_kernel.candidates = []
    ∧ target dW sW2 t_x5 = some sW2
    ∧ sW2.status = navigation_status.e_on_portal
    ∧ sW2.status ≠ navigation_status.e_abort
    ∧ sW2.status ≠ navigation_status.e_on_target
    ∧ sW2.distance_to_next = scalar.fin 0 := by
  refine ⟨by decide, by decide, by decide, by decide, by decide, by decide, by decide,
    by decide, by decide⟩

/-- C6 counterexample: (i) on the `dC` detector a high-trust `status`
call overwrites only the cursor's record (path 5 → 7) and returns with
the surface cache unsorted (7 before 6); (ii) on the `dB` detector the
cursor walks off the end (`next = 2`), and the following no-trust
re-initialisation returns with the cursor reset to the head (`next =
0 < 2`) — the cursor moves backwards within one cache lifetime (the
cache is never cleared in between). -/
theorem cache_sortedness_cex :
    (status dC nav_default t_x0 = some sC1
     ∧ status dC { sC1 with trust_level := navigation_trust_level.e_high_trust } t_x1
         = some sC2
     ∧ ¬ List.Sorted candidate_le sC2.surface_kernel.candidates)
    ∧ (status dB nav_default t_x0 = some sK1
       ∧ status dB sK1 t_x0 = some sK2
       ∧ status dB sK2 t_x1 = some sB3
       ∧ status dB sB3 t_x1 = some sK1
       ∧ sK1.surface_kernel.candidates = sB3.surface_kernel.candidates
       ∧ sK1.surface_kernel.next < sB3.surface_kernel.next) := by
  refine ⟨⟨by decide, by decide, by decide⟩,
    by decide, by decide, by decide, by decide, by decide, by decide⟩

/-- C6 (amended): at every return from `sort_and_set` — i.e. after any
initialisation or fair-trust re-sort — the candidate cache is sorted by
ascending path length (ties by index) and the cursor points at the head
when the cache is non-empty.  (At arbitrary `status()`/`target()`
returns the sortedness can be broken by a high-trust in-place overwrite,
and the cursor can move backwards when a no-trust re-initialisation runs
over stale candidates, as the counterexample shows.) -/
theorem sort_and_set_sorted_cursor_head (b : Bool) (nav : navigation_state)
    (k : navigation_kernel) :
    List.Sorted candidate_le (sort_and_set b nav k).2.candidates
    ∧ ((sort_and_set b nav k).2.candidates.isEmpty = true
       ∨ (sort_and_set b nav k).2.next = 0) := by
  unfold sort_and_set
  by_cases h : k.candidates.isEmpty
  · rw [if_pos h]
    exact ⟨by rw [List.isEmpty_iff.mp h]; exact List.sorted_nil, Or.inl h⟩
  · rw [if_neg h]
    exact ⟨List.sorted_insertionSort candidate_le k.candidates, Or.inr rfl⟩

/-- C7 counterexample: on the `dD` detector a fair-trust `status` call
re-intersects every cached record and stores the result unconditionally;
the `outside` re-intersection of object 0 remains in the cache at the
return from `status()`. -/
theorem cache_inside_invariant_cex :
    status dD nav_default t_x0 = some sC1
    ∧ status dD { sC1 with trust_level := navigation_trust_level.e_fair_trust } t_x1
        = some sD2
    ∧ ({ path := 9, index := 0, link := 0, status := intersection_status.e_outside }
        : intersection) ∈ sD2.surface_kernel.candidates
    ∧ sD2.surface_kernel.candidates.all is_inside = false := by
  refine ⟨by decide, by decide, by decide, by decide⟩

/-- C7 (amended): a kernel initialised from an empty cache holds only
records whose status is `inside` — `initialize_kernel` drops every
non-`inside` intersection.  (The invariant does not survive updates: a
fair-trust update stores re-intersections unconditionally and a failed
high-trust re-intersection leaves the stale record in place, as the
counterexample shows.) -/
theorem initialize_kernel_all_inside (b : Bool) (nav : navigation_state)
    (k : navigation_kernel) (t : track) (c : constituents)
    (h : k.candidates = []) :
    ((initialize_kernel b nav k t c).2).candidates.all is_inside = true := by
  unfold initialize_kernel
  by_cases h0 : c.n_objects = 0
  · rw [if_pos h0]
    dsimp only
    rw [h]
    rfl
  · rw [if_neg h0]
    dsimp only
    apply sort_and_set_all_inside
    apply initialize_step_all_inside
    rw [h]
    rfl

/-- C7 witness: `initialize_kernel_all_inside` on the `dA` surfaces from
a fresh state. -/
theorem initialize_kernel_all_inside_witness :
    ({ candidates := [], next := 0 } : navigation_kernel).candidates = []
    ∧ ((initialize_kernel true nav_default { candidates := [], next := 0 } t_x0
         surfaces_0_5).2).candidates.all is_inside = true :=
  ⟨rfl,
   initialize_kernel_all_inside true nav_default { candidates := [], next := 0 }
     t_x0 surfaces_0_5 rfl⟩

/-- C8 counterexample: on the `dA` detector, with the track never
moving, the second and third `status()` calls return different states:
the second call reaches the head surface (`e_on_surface`, cursor
advanced, trust high), the third re-targets the next candidate
(`e_towards_surface`, distance 5, trust full). -/
theorem status_not_idempotent_cex :
    status dA nav_default t_x0 = some sK1
    ∧ status dA sK1 t_x0 = some sK2
    ∧ status dA sK2 t_x0 = some sA3
    ∧ sA3 ≠ sK2 := by
  refine ⟨by decide, by decide, by decide, by decide⟩

/-- C8 (amended): two consecutive `status()` calls with the track
unchanged produce identical navigation state provided the first call
takes the high-trust towards-surface path: a trusted (≥ high), non-
exhausted surface cache whose cursor record re-intersects `inside`
beyond the on-surface tolerance, in a well-indexed volume.  (When the
cursor record is within tolerance the first call advances the cursor and
the second call changes the state, as the counterexample shows.) -/
theorem status_idempotent_towards (d : detector_type) (s : navigation_state) (t : track)
    (vol : volume) (cur : intersection)
    (hvi : s.volume_index ≠ dindex_invalid)
    (hvol : d.volumes[s.volume_index]? = some vol)
    (hidx : vol.index = s.volume_index)
    (htr : navigation_trust_level.e_high_trust.level ≤ s.trust_level.level)
    (hcur : s.surface_kernel.candidates[s.surface_kernel.next]? = some cur)
    (hin : (reintersect vol.surfaces t cur.index).status = intersection_status.e_inside)
    (hfar : ¬ (reintersect vol.surfaces t cur.index).path < s.on_surface_tolerance) :
    ∃ s1, status d s t = some s1 ∧ status d s1 t = some s1 := by
  obtain ⟨hlt, _⟩ := List.getElem?_eq_some_iff.mp hcur
  refine ⟨_, status_towards_step d s t vol cur hvi hvol hidx htr hcur hin hfar, ?_⟩
  have h2 := status_towards_step d
    { s with
      surface_kernel :=
        { candidates := s.surface_kernel.candidates.set s.surface_kernel.next
            (reintersect vol.surfaces t cur.index),
          next := s.surface_kernel.next },
      distance_to_next := scalar.fin (reintersect vol.surfaces t cur.index).path,
      status := navigation_status.e_towards_surface,
      trust_level := navigation_trust_level.e_full_trust }
    t vol (reintersect vol.surfaces t cur.index)
    hvi hvol hidx
    ((by decide : navigation_trust_level.e_high_trust.level ≤
        navigation_trust_level.e_full_trust.level))
    (List.getElem?_set_eq_of_lt _ hlt)
    hin hfar
  rw [h2, List.set_set]
  rfl

/-- C8 witness: `status_idempotent_towards` on the `dA` detector with
the cursor on the far candidate (path 5). -/
theorem status_idempotent_towards_witness :
    sK1_cursor1.volume_index ≠ dindex_invalid
    ∧ dA.volumes[sK1_cursor1.volume_index]? = some volA
    ∧ volA.index = sK1_cursor1.volume_index
    ∧ navigation_trust_level.e_high_trust.level ≤ sK1_cursor1.trust_level.level
    ∧ sK1_cursor1.surface_kernel.candidates[sK1_cursor1.surface_kernel.next]? =
        some { path := 5, index := 1, link := 0, status := intersection_status.e_inside }
    ∧ (∃ s1, status dA sK1_cursor1 t_x0 = some s1 ∧ status dA s1 t_x0 = some s1) :=
  ⟨by decide, rfl, rfl, by decide, rfl,
   status_idempotent_towards dA sK1_cursor1 t_x0 volA
     { path := 5, index := 1, link := 0, status := intersection_status.e_inside }
     (by decide) rfl rfl (by decide) rfl rfl (by decide)⟩

/-- C9 counterexample: a state on which an external actor has set
`status = e_abort` is not returned unchanged: `status()` performs its
normal work (volume bootstrap, portal cache fill) and even overwrites
the abort status with `e_towards_portal`. -/
theorem entry_status_not_checked_cex :
    s_abort.status = navigation_status.e_abort
    ∧ status dW s_abort t_x0 = some sW1
    ∧ sW1 ≠ s_abort
    ∧ sW1.status ≠ navigation_status.e_abort := by
  refine ⟨by decide, by decide, by decide, by decide⟩

/-- C9 (amended): the navigator does not check `e_on_target`/`e_abort`
on entry; the only early return is `target()`'s full-trust check, which
returns the state unchanged whenever the trust level is full, whatever
the status.  (`status()` always performs work, as the counterexample
shows.) -/
theorem target_full_trust_frame (d : detector_type) (s : navigation_state) (t : track)
    (h : s.trust_level = navigation_trust_level.e_full_trust) :
    target d s t = some s := by
  unfold target
  rw [if_pos h]

/-- C9 witness: `target_full_trust_frame` on the full-trust state
`sW1`. -/
theorem target_full_trust_frame_witness :
    sW1.trust_level = navigation_trust_level.e_full_trust
    ∧ target dW sW1 t_x0 = some sW1 :=
  ⟨rfl, target_full_trust_frame dW sW1 t_x0 rfl⟩

/-- C10: when the cursor's re-intersection is `inside` and within the
on-surface tolerance, `update_kernel` treats the two object classes
asymmetrically: on the surface kernel it sets `e_on_surface`, advances
the cursor past the reached record and sets trust to `e_high_trust`; on
the portal kernel it sets `e_on_portal`, leaves the cursor on the
reached record (whose neighbour link the volume switch then reads) and
leaves the trust level unchanged.  Both overwrite the cursor record, the
distance and `current_index`. -/
theorem update_kernel_surface_portal_asymmetry
    (nav : navigation_state) (k : navigation_kernel) (t : track) (c : constituents)
    (cur : intersection)
    (htr : navigation_trust_level.e_high_trust.level ≤ nav.trust_level.level)
    (hcur : k.candidates[k.next]? = some cur)
    (hin : (reintersect c t cur.index).status = intersection_status.e_inside)
    (hnear : (reintersect c t cur.index).path < nav.on_surface_tolerance) :
    update_kernel true nav k t c =
      (true,
       { nav with
         distance_to_next := scalar.fin (reintersect c t cur.index).path,
         status := navigation_status.e_on_surface,
         current_index := cur.index,
         trust_level := navigation_trust_level.e_high_trust },
       { candidates := k.candidates.set k.next (reintersect c t cur.index),
         next := k.next + 1 })
    ∧ update_kernel false nav k t c =
      (true,
       { nav with
         distance_to_next := scalar.fin (reintersect c t cur.index).path,
         status := navigation_status.e_on_portal,
         current_index := cur.index },
       { candidates := k.candidates.set k.next (reintersect c t cur.index),
         next := k.next }) :=
  ⟨update_kernel_on true nav k t c cur htr hcur hin hnear,
   update_kernel_on false nav k t c cur htr hcur hin hnear⟩

/-- C10 witness: `update_kernel_surface_portal_asymmetry` on the `dA`
surfaces with the cursor on the reached candidate (path 0). -/
theorem update_kernel_surface_portal_asymmetry_witness :
    navigation_trust_level.e_high_trust.level ≤ nav_high0.trust_level.level
    ∧ sK1.surface_kernel.candidates[sK1.surface_kernel.next]? =
        some { path := 0, index := 0, link := 0, status := intersection_status.e_inside }
    ∧ (reintersect surfaces_0_5 t_x0 0).status = intersection_status.e_inside
    ∧ (reintersect surfaces_0_5 t_x0 0).path < nav_high0.on_surface_tolerance
    ∧ (update_kernel true nav_high0 sK1.surface_kernel t_x0 surfaces_0_5 =
        (true,
         { nav_high0 with
           distance_to_next := scalar.fin 0,
           status := navigation_status.e_on_surface,
           current_index := 0,
           trust_level := navigation_trust_level.e_high_trust },
         { candidates := sK1.surface_kernel.candidates, next := 1 })
       ∧ update_kernel false nav_high0 sK1.surface_kernel t_x0 surfaces_0_5 =
        (true,
         { nav_high0 with
           distance_to_next := scalar.fin 0,
           status := navigation_status.e_on_portal,
           current_index := 0 },
         { candidates := sK1.surface_kernel.candidates, next := 0 })) :=
  ⟨by decide, rfl, rfl, by decide,
   update_kernel_surface_portal_asymmetry nav_high0 sK1.surface_kernel t_x0 surfaces_0_5
     { path := 0, index := 0, link := 0, status := intersection_status.e_inside }
     (by decide) rfl rfl (by decide)⟩

end detray
